import Mathlib

/-!
Verification of the RESTClient core (pkg/client/restclient.go).

The Go code is embedded shallowly: `url.URL` becomes a record of the fields
the client reads or writes, `time.Duration` becomes `Int` (nanoseconds),
the opaque codec and HTTP transport handles become natural-number tokens,
and the poll function stored in requests becomes a tag (`PollerRef`) that is
interpreted against the client state current at call time, which is how a Go
method value bound to a client pointer behaves.  `time.Sleep` is modelled by
the duration it blocks: `max d 0`.  `DefaultPoll` therefore returns a triple
(next request, continue?, duration slept).
-/

/-- The fields of a Go `net/url.URL` value that the client reads or writes
(the remaining fields ride along unchanged and are summarised by `scheme`
and `host`). -/
structure URL where
  scheme : String
  host : String
  path : String
  rawQuery : String
  fragment : String
deriving DecidableEq, Inhabited

/-- Go `strings.HasSuffix s suf`: `suf` is a suffix of `s`. -/
def hasSuffix (s suf : String) : Bool :=
  List.isSuffixOf suf.data s.data

/-- Go `time.Duration`, in nanoseconds. -/
abbrev Duration := Int

/-- Go `time.Second`. -/
def timeSecond : Duration := 1000000000

/-- Go `time.Sleep d` blocks for `d` when `d > 0` and returns immediately
otherwise; the model records the duration actually blocked. -/
def timeSleep (d : Duration) : Duration := max d 0

/-- Opaque token standing for a `runtime.Codec` reference. -/
abbrev CodecRef := Nat

/-- Opaque token standing for an `HTTPClient` transport handle. -/
abbrev HTTPClientRef := Nat

/-- A poll function value held by a request or a client.  `defaultPoll` is
the client-bound method value `c.DefaultPoll`; `custom i` is any other
`PollFunc` supplied by the caller. -/
inductive PollerRef where
  | defaultPoll
  | custom (id : Nat)
deriving DecidableEq

/-- Modelled from the spec: the external Request builder collaborator
(`pkg/client/request.go`, not part of the given source).  Per the spec it
accumulates verb, target resource collection, target resource name, poller,
sync flag and timeout, on top of the transport handle, base address, codec
and the two legacy-mode arguments passed at creation. -/
structure Request where
  client : Option HTTPClientRef
  verb : String
  baseURL : URL
  codec : CodecRef
  namespaceInQuery : Bool
  preserveResourceCase : Bool
  resource : String
  name : String
  poller : Option PollerRef
  sync : Bool
  timeout : Duration
deriving DecidableEq

/-- Modelled from the spec: `NewRequest(client, verb, baseURL, codec,
namespaceInQuery, preserveResourceCase)` creates a fresh builder seeded with
those values and nothing else configured yet. -/
def NewRequest (client : Option HTTPClientRef) (verb : String) (baseURL : URL)
    (codec : CodecRef) (namespaceInQuery : Bool) (preserveResourceCase : Bool) :
    Request :=
  { client := client
    verb := verb
    baseURL := baseURL
    codec := codec
    namespaceInQuery := namespaceInQuery
    preserveResourceCase := preserveResourceCase
    resource := ""
    name := ""
    poller := none
    sync := false
    timeout := 0 }

/-- Modelled from the spec: chainable setter for the target resource
collection. -/
def Request.Resource (r : Request) (resource : String) : Request :=
  { r with resource := resource }

/-- Modelled from the spec: chainable setter for the target resource name. -/
def Request.Name (r : Request) (name : String) : Request :=
  { r with name := name }

/-- Modelled from the spec: chainable setter for the synchronous-mode flag. -/
def Request.Sync (r : Request) (sync : Bool) : Request :=
  { r with sync := sync }

/-- Modelled from the spec: chainable setter installing a poller. -/
def Request.Poller (r : Request) (poller : Option PollerRef) : Request :=
  { r with poller := poller }

/-- Modelled from the spec: disables polling for this builder by removing
any installed poller. -/
def Request.NoPoll (r : Request) : Request :=
  { r with poller := none }

/-- Modelled from the spec: chainable setter for the timeout. -/
def Request.Timeout (r : Request) (timeout : Duration) : Request :=
  { r with timeout := timeout }

/-- The `RESTClient` struct of restclient.go. -/
structure RESTClient where
  baseURL : URL
  apiVersion : String
  LegacyBehavior : Bool
  Codec : CodecRef
  Client : Option HTTPClientRef
  Poller : Option PollerRef
  Sync : Bool
  PollPeriod : Duration
  Timeout : Duration
deriving DecidableEq

/-- `NewRESTClient(baseURL, apiVersion, c, legacyBehavior)`: copies the URL,
appends a trailing slash to the path when absent, clears query and fragment,
and fills in the defaults (`Sync = false`, `PollPeriod = 2s`, zero values
for the fields the Go composite literal leaves unset). -/
def NewRESTClient (baseURL : URL) (apiVersion : String) (c : CodecRef)
    (legacyBehavior : Bool) : RESTClient :=
  let base := baseURL
  let base :=
    if !hasSuffix base.path "/" then { base with path := base.path ++ "/" }
    else base
  let base := { base with rawQuery := "", fragment := "" }
  { baseURL := base
    apiVersion := apiVersion
    Codec := c
    LegacyBehavior := legacyBehavior
    Client := none
    Poller := none
    Sync := false
    PollPeriod := 2 * timeSecond
    Timeout := 0 }

/-- `Verb`: builds a request seeded with the client's configuration; the
poller is the client's `Poller` field unless that is nil, in which case the
client-bound `DefaultPoll` method value is used. -/
def RESTClient.Verb (c : RESTClient) (verb : String) : Request :=
  let poller : Option PollerRef :=
    match c.Poller with
    | none => some PollerRef.defaultPoll
    | some p => some p
  (((NewRequest c.Client verb c.baseURL c.Codec c.LegacyBehavior
      c.LegacyBehavior).Poller poller).Sync c.Sync).Timeout c.Timeout

/-- `Post`: short for `c.Verb "POST"`. -/
def RESTClient.Post (c : RESTClient) : Request := c.Verb "POST"

/-- `Put`: short for `c.Verb "PUT"`. -/
def RESTClient.Put (c : RESTClient) : Request := c.Verb "PUT"

/-- `Get`: short for `c.Verb "GET"`. -/
def RESTClient.Get (c : RESTClient) : Request := c.Verb "GET"

/-- `Delete`: short for `c.Verb "DELETE"`. -/
def RESTClient.Delete (c : RESTClient) : Request := c.Verb "DELETE"

/-- `Operation(name)`: a single poll of the named operation. -/
def RESTClient.Operation (c : RESTClient) (name : String) : Request :=
  ((((c.Get).Resource "operations").Name name).Sync false).NoPoll

/-- `DefaultPoll(name)`: returns (next request, continue?, duration slept).
When the poll period is zero it stops; otherwise it sleeps one poll period
and returns an `Operation name` request with `DefaultPoll` re-installed. -/
def RESTClient.DefaultPoll (c : RESTClient) (name : String) :
    Option Request × Bool × Duration :=
  if c.PollPeriod = 0 then (none, false, 0)
  else
    let slept := timeSleep c.PollPeriod
    (some ((c.Operation name).Poller (some PollerRef.defaultPoll)), true, slept)

/-- `APIVersion`: accessor for the version string fixed at construction. -/
def RESTClient.APIVersion (c : RESTClient) : String := c.apiVersion

/-- A store of `url.URL` values: a Go pointer `*url.URL` is an index into
the store.  Used to state that the constructor copies its argument. -/
abbrev URLStore := List URL

/-- Dereference a URL pointer. -/
def readURL (s : URLStore) (p : Nat) : URL := s.getD p default

/-- `RESTClient` with the base URL held by pointer, as in the Go struct. -/
structure RESTClientRef where
  baseURLPtr : Nat
  apiVersion : String
  LegacyBehavior : Bool
  Codec : CodecRef
  Sync : Bool
  PollPeriod : Duration
deriving DecidableEq

/-- `NewRESTClient` with explicit pointer store: `base := *baseURL` copies
the pointee, the copy is normalized, and `&base` is a fresh cell appended to
the store; the original cell is never written. -/
def NewRESTClientRef (store : URLStore) (p : Nat) (apiVersion : String)
    (c : CodecRef) (legacyBehavior : Bool) : URLStore × RESTClientRef :=
  let base := readURL store p
  let base :=
    if !hasSuffix base.path "/" then { base with path := base.path ++ "/" }
    else base
  let base := { base with rawQuery := "", fragment := "" }
  (store ++ [base],
   { baseURLPtr := store.length
     apiVersion := apiVersion
     Codec := c
     LegacyBehavior := legacyBehavior
     Sync := false
     PollPeriod := 2 * timeSecond })

theorem hasSuffix_append_slash (s : String) : hasSuffix (s ++ "/") "/" = true := by
  simp only [hasSuffix]
  rw [List.isSuffixOf_iff_suffix, String.data_append]
  exact List.suffix_append _ _

theorem newRESTClient_baseURL_eval (u : URL) (v : String) (k : CodecRef)
    (l : Bool) :
    (NewRESTClient u v k l).baseURL =
      { u with
        path := if hasSuffix u.path "/" then u.path else u.path ++ "/"
        rawQuery := ""
        fragment := "" } := by
  by_cases hs : hasSuffix u.path "/"
  · simp [NewRESTClient, hs]
  · simp [NewRESTClient, hs]

/-- C1: For every raw base address passed to `NewRESTClient`, the
constructed client's base path ends in a slash — with exactly one slash
appended when the supplied path lacked a trailing one and the path left
unchanged otherwise — and its query string and fragment are both empty,
whatever query string or fragment the input carried. -/
theorem newRESTClient_base_normalized (u : URL) (v : String) (k : CodecRef)
    (l : Bool) :
    hasSuffix (NewRESTClient u v k l).baseURL.path "/" = true ∧
    (NewRESTClient u v k l).baseURL.path =
      (if hasSuffix u.path "/" then u.path else u.path ++ "/") ∧
    (NewRESTClient u v k l).baseURL.rawQuery = "" ∧
    (NewRESTClient u v k l).baseURL.fragment = "" := by
  rw [newRESTClient_baseURL_eval]
  by_cases hs : hasSuffix u.path "/"
  · simp [hs]
  · simp [hs, hasSuffix_append_slash]

/-- C2: whenever the client's `PollPeriod` is zero, `DefaultPoll` returns a
nil next-request and the decision not to continue, sleeping for no time at
all, for every operation name. -/
theorem defaultPoll_zero_period_stops (c : RESTClient) (name : String)
    (h : c.PollPeriod = 0) :
    c.DefaultPoll name = (none, false, 0) := by
  simp [RESTClient.DefaultPoll, h]

theorem defaultPoll_zero_period_stops_witness :
    RESTClient.DefaultPoll
      { baseURL := ⟨"http", "host", "/api/", "", ""⟩, apiVersion := "v1"
        LegacyBehavior := false, Codec := 0, Client := none, Poller := none
        Sync := false, PollPeriod := 0, Timeout := 0 } "op1" =
      (none, false, 0) :=
  defaultPoll_zero_period_stops _ "op1" rfl

/-- C3: whenever the client's `PollPeriod` is nonzero, `DefaultPoll` blocks
for at least one poll period and then returns the decision to continue
together with a request that targets the operations collection at the same
name and has `DefaultPoll` re-installed as its own poller. -/
theorem defaultPoll_nonzero_period_continues (c : RESTClient) (name : String)
    (h : c.PollPeriod ≠ 0) :
    (c.DefaultPoll name).2.2 ≥ c.PollPeriod ∧
    ∃ r : Request,
      c.DefaultPoll name = (some r, true, timeSleep c.PollPeriod) ∧
      r.verb = "GET" ∧ r.resource = "operations" ∧ r.name = name ∧
      r.poller = some PollerRef.defaultPoll := by
  refine ⟨?_, (c.Operation name).Poller (some PollerRef.defaultPoll), ?_, ?_, ?_, ?_, ?_⟩
  · simp [RESTClient.DefaultPoll, h, timeSleep]
  · simp [RESTClient.DefaultPoll, h]
  · simp [RESTClient.Operation, RESTClient.Get, RESTClient.Verb, NewRequest,
      Request.Resource, Request.Name, Request.Sync, Request.NoPoll,
      Request.Poller, Request.Timeout]
  · simp [RESTClient.Operation, RESTClient.Get, RESTClient.Verb, NewRequest,
      Request.Resource, Request.Name, Request.Sync, Request.NoPoll,
      Request.Poller, Request.Timeout]
  · simp [RESTClient.Operation, RESTClient.Get, RESTClient.Verb, NewRequest,
      Request.Resource, Request.Name, Request.Sync, Request.NoPoll,
      Request.Poller, Request.Timeout]
  · simp [Request.Poller]

theorem defaultPoll_nonzero_period_continues_witness :
    (RESTClient.DefaultPoll
        { baseURL := ⟨"http", "host", "/api/", "", ""⟩, apiVersion := "v1"
          LegacyBehavior := false, Codec := 0, Client := none, Poller := none
          Sync := false, PollPeriod := 2000000000, Timeout := 0 } "op1").2.2 ≥
      2000000000 ∧
    ∃ r : Request,
      RESTClient.DefaultPoll
          { baseURL := ⟨"http", "host", "/api/", "", ""⟩, apiVersion := "v1"
            LegacyBehavior := false, Codec := 0, Client := none, Poller := none
            Sync := false, PollPeriod := 2000000000, Timeout := 0 } "op1" =
        (some r, true, timeSleep 2000000000) ∧
      r.verb = "GET" ∧ r.resource = "operations" ∧ r.name = "op1" ∧
      r.poller = some PollerRef.defaultPoll :=
  defaultPoll_nonzero_period_continues _ "op1" (by decide)

/-- C4: for every client and name, `Operation name` is a GET against the
fixed "operations" collection with exactly the given name, with the sync
flag set to false and no poller installed. -/
theorem operation_request_shape (c : RESTClient) (name : String) :
    (c.Operation name).verb = "GET" ∧
    (c.Operation name).resource = "operations" ∧
    (c.Operation name).name = name ∧
    (c.Operation name).sync = false ∧
    (c.Operation name).poller = none := by
  refine ⟨?_, ?_, ?_, ?_, ?_⟩ <;>
    simp [RESTClient.Operation, RESTClient.Get, RESTClient.Verb, NewRequest,
      Request.Resource, Request.Name, Request.Sync, Request.NoPoll,
      Request.Poller, Request.Timeout]

/-- C5 counterexample: a malformed base address (empty scheme and host,
percent-garbage query, nonempty fragment) does not make the constructor
report failure; `NewRESTClient` is a total function and returns an ordinary
client whose base is the silently normalized copy. -/
theorem newRESTClient_malformed_no_failure :
    NewRESTClient ⟨"", "", "", "a=%zz", "frag"⟩ "v1" 0 false =
      { baseURL := ⟨"", "", "/", "", ""⟩, apiVersion := "v1"
        LegacyBehavior := false, Codec := 0, Client := none, Poller := none
        Sync := false, PollPeriod := 2000000000, Timeout := 0 } := by
  decide

/-- C5 amended: the constructor has no failure path at all.  For every base
address, malformed or not, `NewRESTClient` returns a client whose base is
the normalized copy of the input and whose version is the supplied one;
address parsing and its errors happen before this constructor and are the
caller's responsibility. -/
theorem newRESTClient_never_fails (u : URL) (v : String) (k : CodecRef)
    (l : Bool) :
    (NewRESTClient u v k l).baseURL =
      { u with
        path := if hasSuffix u.path "/" then u.path else u.path ++ "/"
        rawQuery := ""
        fragment := "" } ∧
    (NewRESTClient u v k l).apiVersion = v := by
  refine ⟨newRESTClient_baseURL_eval u v k l, ?_⟩
  by_cases hs : hasSuffix u.path "/" <;> simp [NewRESTClient, hs]

/-- C6: for every verb name, `Verb` returns a builder carrying the client's
transport handle, the given verb, the base address, the codec, the
legacy-mode flag in both legacy positions, the sync flag, the timeout, and
as effective poller the client's configured `Poller` when set, otherwise
the client-bound `DefaultPoll`. -/
theorem verb_request_config (c : RESTClient) (v : String) :
    (c.Verb v).client = c.Client ∧
    (c.Verb v).verb = v ∧
    (c.Verb v).baseURL = c.baseURL ∧
    (c.Verb v).codec = c.Codec ∧
    (c.Verb v).namespaceInQuery = c.LegacyBehavior ∧
    (c.Verb v).preserveResourceCase = c.LegacyBehavior ∧
    (c.Verb v).sync = c.Sync ∧
    (c.Verb v).timeout = c.Timeout ∧
    (c.Verb v).poller = some (c.Poller.getD PollerRef.defaultPoll) := by
  cases hp : c.Poller <;>
    simp [RESTClient.Verb, NewRequest, Request.Poller, Request.Sync,
      Request.Timeout, hp]

/-- C7: base-address normalization is idempotent.  When the input path
already ends in a slash and the input carries no query string or fragment,
the constructed client's base address equals the input exactly. -/
theorem newRESTClient_idempotent (u : URL) (v : String) (k : CodecRef)
    (l : Bool) (h1 : hasSuffix u.path "/" = true) (h2 : u.rawQuery = "")
    (h3 : u.fragment = "") :
    (NewRESTClient u v k l).baseURL = u := by
  rw [newRESTClient_baseURL_eval, h1]
  cases u
  simp_all

theorem newRESTClient_idempotent_witness :
    (NewRESTClient ⟨"http", "host", "/api/", "", ""⟩ "v1" 0 false).baseURL =
      ⟨"http", "host", "/api/", "", ""⟩ :=
  newRESTClient_idempotent _ "v1" 0 false (by decide) rfl rfl

/-- C8: the constructor normalizes only a copy of the supplied base
address.  In the pointer-store model, the cell the caller's pointer refers
to is unchanged after construction, the client's base pointer is a fresh
cell distinct from the caller's, and that fresh cell holds exactly the
normalized base that `NewRESTClient` computes from the pointee. -/
theorem newRESTClient_copies_base (store : URLStore) (p : Nat) (v : String)
    (k : CodecRef) (l : Bool) (h : p < store.length) :
    readURL (NewRESTClientRef store p v k l).1 p = readURL store p ∧
    (NewRESTClientRef store p v k l).2.baseURLPtr ≠ p ∧
    readURL (NewRESTClientRef store p v k l).1
        (NewRESTClientRef store p v k l).2.baseURLPtr =
      (NewRESTClient (readURL store p) v k l).baseURL := by
  refine ⟨?_, ?_, ?_⟩
  · simp only [NewRESTClientRef, readURL]
    exact List.getD_append _ _ _ _ h
  · simp only [NewRESTClientRef]
    omega
  · simp only [NewRESTClientRef, readURL, NewRESTClient]
    rw [List.getD_append_right _ _ _ _ (Nat.le_refl _)]
    simp

theorem newRESTClient_copies_base_witness :
    readURL
        (NewRESTClientRef [⟨"http", "host", "/api", "q=1", "f"⟩] 0 "v1" 0
          false).1 0 =
      readURL [⟨"http", "host", "/api", "q=1", "f"⟩] 0 ∧
    (NewRESTClientRef [⟨"http", "host", "/api", "q=1", "f"⟩] 0 "v1" 0
          false).2.baseURLPtr ≠ 0 ∧
    readURL
        (NewRESTClientRef [⟨"http", "host", "/api", "q=1", "f"⟩] 0 "v1" 0
          false).1
        (NewRESTClientRef [⟨"http", "host", "/api", "q=1", "f"⟩] 0 "v1" 0
          false).2.baseURLPtr =
      (NewRESTClient (readURL [⟨"http", "host", "/api", "q=1", "f"⟩] 0) "v1" 0
          false).baseURL :=
  newRESTClient_copies_base _ 0 "v1" 0 false (by decide)

/-- C9: a strictly negative `PollPeriod` does not disable polling.  Only an
exactly-zero period stops the chain: for every negative period and every
name, `DefaultPoll` takes the continue branch and returns a non-nil next
request and the decision to continue, with zero time slept because a sleep
with a negative duration returns immediately. -/
theorem defaultPoll_negative_period_continues (c : RESTClient) (name : String)
    (h : c.PollPeriod < 0) :
    ∃ r : Request, c.DefaultPoll name = (some r, true, 0) := by
  refine ⟨(c.Operation name).Poller (some PollerRef.defaultPoll), ?_⟩
  have hne : c.PollPeriod ≠ 0 := ne_of_lt h
  simp [RESTClient.DefaultPoll, hne, timeSleep, max_eq_right h.le]

theorem defaultPoll_negative_period_continues_witness :
    ∃ r : Request,
      RESTClient.DefaultPoll
          { baseURL := ⟨"http", "host", "/api/", "", ""⟩, apiVersion := "v1"
            LegacyBehavior := false, Codec := 0, Client := none, Poller := none
            Sync := false, PollPeriod := -1, Timeout := 0 } "op1" =
        (some r, true, 0) :=
  defaultPoll_negative_period_continues _ "op1" (by decide)

/-- C10: `DefaultPoll` reads the client's current `PollPeriod` on each
invocation.  A poll on a client with nonzero period hands back a request
with the client-bound `DefaultPoll` re-installed, and invoking that poller
after the client's period is set to zero returns a nil request and the
decision to stop. -/
theorem defaultPoll_reads_current_period (c : RESTClient) (name : String)
    (h : c.PollPeriod ≠ 0) :
    (∃ r : Request,
      c.DefaultPoll name = (some r, true, timeSleep c.PollPeriod) ∧
      r.poller = some PollerRef.defaultPoll) ∧
    RESTClient.DefaultPoll { c with PollPeriod := 0 } name =
      (none, false, 0) := by
  refine ⟨⟨(c.Operation name).Poller (some PollerRef.defaultPoll), ?_, ?_⟩, ?_⟩
  · simp [RESTClient.DefaultPoll, h]
  · simp [Request.Poller]
  · simp [RESTClient.DefaultPoll]

theorem defaultPoll_reads_current_period_witness :
    (∃ r : Request,
      RESTClient.DefaultPoll
          { baseURL := ⟨"http", "host", "/api/", "", ""⟩, apiVersion := "v1"
            LegacyBehavior := false, Codec := 0, Client := none, Poller := none
            Sync := false, PollPeriod := 2000000000, Timeout := 0 } "op1" =
        (some r, true, timeSleep 2000000000) ∧
      r.poller = some PollerRef.defaultPoll) ∧
    RESTClient.DefaultPoll
        { ({ baseURL := ⟨"http", "host", "/api/", "", ""⟩, apiVersion := "v1"
             LegacyBehavior := false, Codec := 0, Client := none
             Poller := none, Sync := false, PollPeriod := 2000000000
             Timeout := 0 } : RESTClient) with PollPeriod := 0 } "op1" =
      (none, false, 0) :=
  defaultPoll_reads_current_period _ "op1" (by decide)
